import Mathlib

/-!
Shallow embedding of the talib-mcp-server repository (src/app variant, the
self-contained top-level package): the indicator/validation layer of
`app/indicators.py` and the bearer-token middleware of `app/auth.py`.

Python values are modelled explicitly: a price-list element is a `PyVal`
(a finite number, a float NaN or infinity, a string, or Python `None`);
numeric parameters (`period`, `fast`, `slow`, `signal`, deviation
multipliers) are rationals, since Python does not enforce the `int`
annotations; functions that may raise `ValueError` return `Except String`.
The numerical backend in `app/indicators.py` is the module-level
`talib = MockTALib()`, whose methods return arrays filled with NaN; it is
embedded as such.
-/

/-- An element of a Python list passed as `prices`.  `isinstance(p, (int, float))`
holds for finite numbers and also for the float values NaN and ±infinity. -/
inductive PyVal where
  | num (q : ℚ)
  | nan
  | inf
  | negInf
  | str (s : String)
  | nullv
deriving DecidableEq

/-- A cell of a numpy float array: a finite float or NaN or ±infinity. -/
inductive NpVal where
  | num (q : ℚ)
  | nan
  | inf
  | negInf
deriving DecidableEq

/-- `isinstance(p, (int, float))` from `_validate_prices`. -/
def PyVal.isNumeric : PyVal → Bool
  | .num _ => true
  | .nan => true
  | .inf => true
  | .negInf => true
  | .str _ => false
  | .nullv => false

/-- `np.array(prices, dtype=float)`: convert each element to a float cell.
Only called after `_validate_prices` succeeded, so the non-numeric cases are
unreachable; they are mapped to NaN. -/
def PyVal.toNp : PyVal → NpVal
  | .num q => .num q
  | .nan => .nan
  | .inf => .inf
  | .negInf => .negInf
  | .str _ => .nan
  | .nullv => .nan

/-- `np.isnan`. -/
def NpVal.isnan : NpVal → Bool
  | .nan => true
  | _ => false

namespace MockTALib

/-- `MockTALib.RSI`: `np.full(len(prices), np.nan)`. -/
def RSI (prices : List NpVal) (_timeperiod : ℚ) : List NpVal :=
  List.replicate prices.length .nan

/-- `MockTALib.MACD`: three arrays of `len(prices)` NaNs. -/
def MACD (prices : List NpVal) (_fastperiod _slowperiod _signalperiod : ℚ) :
    List NpVal × List NpVal × List NpVal :=
  (List.replicate prices.length .nan,
   List.replicate prices.length .nan,
   List.replicate prices.length .nan)

/-- `MockTALib.EMA`: `np.full(len(prices), np.nan)`. -/
def EMA (prices : List NpVal) (_timeperiod : ℚ) : List NpVal :=
  List.replicate prices.length .nan

/-- `MockTALib.SMA`: `np.full(len(prices), np.nan)`. -/
def SMA (prices : List NpVal) (_timeperiod : ℚ) : List NpVal :=
  List.replicate prices.length .nan

/-- `MockTALib.BBANDS`: three arrays of `len(prices)` NaNs. -/
def BBANDS (prices : List NpVal) (_timeperiod _nbdevup _nbdevdn : ℚ) :
    List NpVal × List NpVal × List NpVal :=
  (List.replicate prices.length .nan,
   List.replicate prices.length .nan,
   List.replicate prices.length .nan)

end MockTALib

/-- `_to_list`: `[None if np.isnan(v) else float(v) for v in arr]`. -/
def to_list (arr : List NpVal) : List (Option NpVal) :=
  arr.map (fun v => if v.isnan then Option.none else Option.some v)

/-- `_validate_prices`. -/
def validate_prices (prices : List PyVal) : Except String Unit :=
  if prices = [] then
    Except.error "'prices' must be a non-empty list"
  else if prices.all PyVal.isNumeric then
    Except.ok ()
  else
    Except.error "All price values must be numeric"

/-- `_validate_positive`. -/
def validate_positive (value : ℚ) (name : String) : Except String Unit :=
  if value ≤ 0 then Except.error (name ++ " must be positive") else Except.ok ()

/-- `_validate_period`. -/
def validate_period (period : ℚ) (prices : List PyVal) : Except String Unit :=
  match validate_positive period "period" with
  | .error e => .error e
  | .ok _ =>
    if period > (prices.length : ℚ) then
      Except.error "period cannot exceed length of prices"
    else
      Except.ok ()

/-- `rsi(prices, period=14)`. -/
def rsi (prices : List PyVal) (period : ℚ) : Except String (List (Option NpVal)) :=
  match validate_prices prices with
  | .error e => .error e
  | .ok _ =>
    match validate_period period prices with
    | .error e => .error e
    | .ok _ =>
      .ok (to_list (MockTALib.RSI (prices.map PyVal.toNp) period))

/-- `macd(prices, fast=12, slow=26, signal=9)`; the returned Python dict is
embedded as an association list preserving key order. -/
def macd (prices : List PyVal) (fast slow signal : ℚ) :
    Except String (List (String × List (Option NpVal))) :=
  match validate_prices prices with
  | .error e => .error e
  | .ok _ =>
    match validate_positive fast "fast" with
    | .error e => .error e
    | .ok _ =>
      match validate_positive slow "slow" with
      | .error e => .error e
      | .ok _ =>
        match validate_positive signal "signal" with
        | .error e => .error e
        | .ok _ =>
          if fast ≥ slow then
            Except.error "fast period must be less than slow period"
          else
            match validate_period slow prices with
            | .error e => .error e
            | .ok _ =>
              let r := MockTALib.MACD (prices.map PyVal.toNp) fast slow signal
              .ok [("macd", to_list r.1),
                   ("macdsignal", to_list r.2.1),
                   ("macdhist", to_list r.2.2)]

/-- `ema(prices, period=10)`. -/
def ema (prices : List PyVal) (period : ℚ) : Except String (List (Option NpVal)) :=
  match validate_prices prices with
  | .error e => .error e
  | .ok _ =>
    match validate_period period prices with
    | .error e => .error e
    | .ok _ =>
      .ok (to_list (MockTALib.EMA (prices.map PyVal.toNp) period))

/-- `sma(prices, period=10)`. -/
def sma (prices : List PyVal) (period : ℚ) : Except String (List (Option NpVal)) :=
  match validate_prices prices with
  | .error e => .error e
  | .ok _ =>
    match validate_period period prices with
    | .error e => .error e
    | .ok _ =>
      .ok (to_list (MockTALib.SMA (prices.map PyVal.toNp) period))

/-- `bbands(prices, period=20, upper_dev=2.0, lower_dev=2.0)`. -/
def bbands (prices : List PyVal) (period upper_dev lower_dev : ℚ) :
    Except String (List (String × List (Option NpVal))) :=
  match validate_prices prices with
  | .error e => .error e
  | .ok _ =>
    match validate_period period prices with
    | .error e => .error e
    | .ok _ =>
      match validate_positive upper_dev "upper_dev" with
      | .error e => .error e
      | .ok _ =>
        match validate_positive lower_dev "lower_dev" with
        | .error e => .error e
        | .ok _ =>
          let r := MockTALib.BBANDS (prices.map PyVal.toNp) period upper_dev lower_dev
          .ok [("upperband", to_list r.1),
               ("middleband", to_list r.2.1),
               ("lowerband", to_list r.2.2)]


/-!
Embedding of `app/auth.py`.  Header values are modelled as `List Char` so
that Python string operations (`startswith`, `split`, `strip`) can be given
character-exact definitions.
-/

/-- The characters Python's default `str.strip()` removes (ASCII whitespace). -/
def pyIsSpace (c : Char) : Bool :=
  c = ' ' || c = '\t' || c = '\n' || c = '\r' || c = '\x0b' || c = '\x0c'

/-- Python `s.strip()`: drop leading and trailing whitespace. -/
def pyStrip (s : List Char) : List Char :=
  ((s.dropWhile pyIsSpace).reverse.dropWhile pyIsSpace).reverse

/-- The literal `"Bearer "` the middleware matches against. -/
def bearerChars : List Char := "Bearer ".toList

/-- `_unauthorized()`: `JSONResponse({"error": "Unauthorized"}, status_code=401)`. -/
structure HttpResponse where
  status : ℕ
  body : List (String × String)
deriving DecidableEq

/-- The single 401 response value built by `_unauthorized`. -/
def unauthorized : HttpResponse :=
  { status := 401, body := [("error", "Unauthorized")] }

/-- Outcome of `BearerAuthMiddleware.dispatch`: either an immediate response
or the invocation of the wrapped application (`await call_next(request)`). -/
inductive DispatchResult where
  | response (r : HttpResponse)
  | callNext
deriving DecidableEq

/-- `BearerAuthMiddleware.dispatch`.  `auth` is `request.headers.get("Authorization")`
(absent header ↦ `Option.none`).  Python's `if not auth` is also true for the
empty string.  Since a header passing `startswith("Bearer ")` has its first
space at index 6, `auth.split(" ", 1)[1]` is the suffix after the first
7 characters. -/
def dispatch (apiKey : List Char) (auth : Option (List Char)) : DispatchResult :=
  match auth with
  | Option.none => .response unauthorized
  | Option.some a =>
    if a = [] then .response unauthorized
    else if a.take 7 ≠ bearerChars then .response unauthorized
    else if pyStrip (a.drop 7) ≠ apiKey then .response unauthorized
    else .callNext

/-- Python `api_key or getenv("MCP_API_KEY")`: the left operand unless it is
falsy (`None` or the empty string). -/
def pyOrKey (a b : Option (List Char)) : Option (List Char) :=
  match a with
  | Option.some s => if s = [] then b else Option.some s
  | Option.none => b

/-- `BearerAuthMiddleware.__init__`: store `api_key or getenv("MCP_API_KEY")`
and raise `RuntimeError` when the stored key is falsy. -/
def bearerAuthInit (apiKey envKey : Option (List Char)) : Except String (List Char) :=
  match pyOrKey apiKey envKey with
  | Option.none => Except.error "MCP_API_KEY environment variable is not set."
  | Option.some s =>
    if s = [] then Except.error "MCP_API_KEY environment variable is not set."
    else Except.ok s


/-! Helper lemmas. -/

lemma to_list_replicate_nan (n : ℕ) :
    to_list (List.replicate n NpVal.nan) = List.replicate n Option.none := by
  simp [to_list, NpVal.isnan]

lemma validate_prices_ok_of_valid (prices : List PyVal)
    (h1 : prices ≠ []) (h2 : prices.all PyVal.isNumeric = true) :
    validate_prices prices = Except.ok () := by
  simp [validate_prices, h1, h2]

lemma validate_positive_ok_iff (v : ℚ) (name : String) :
    validate_positive v name = Except.ok () ↔ 0 < v := by
  unfold validate_positive
  split_ifs with h
  · simp only [reduceCtorEq, false_iff]
    linarith
  · simp only [true_iff]
    linarith [lt_of_not_le h]

lemma validate_period_ok_iff (period : ℚ) (prices : List PyVal) :
    validate_period period prices = Except.ok () ↔
      0 < period ∧ period ≤ (prices.length : ℚ) := by
  unfold validate_period validate_positive
  split_ifs with h h2
  · constructor
    · intro hc
      exact absurd hc (by simp)
    · rintro ⟨hp, _⟩
      linarith
  · constructor
    · intro hc
      exact absurd hc (by simp)
    · rintro ⟨_, hle⟩
      linarith
  · constructor
    · intro _
      exact ⟨lt_of_not_le h, le_of_not_lt h2⟩
    · intro _
      rfl

lemma rsi_ok_shape (prices : List PyVal) (period : ℚ) (out : List (Option NpVal))
    (h : rsi prices period = Except.ok out) :
    out = List.replicate prices.length Option.none := by
  unfold rsi at h
  split at h
  · exact absurd h (by simp)
  · split at h
    · exact absurd h (by simp)
    · injection h with h
      rw [← h]
      simp [MockTALib.RSI, to_list_replicate_nan]

lemma sma_ok_shape (prices : List PyVal) (period : ℚ) (out : List (Option NpVal))
    (h : sma prices period = Except.ok out) :
    out = List.replicate prices.length Option.none := by
  unfold sma at h
  split at h
  · exact absurd h (by simp)
  · split at h
    · exact absurd h (by simp)
    · injection h with h
      rw [← h]
      simp [MockTALib.SMA, to_list_replicate_nan]

lemma ema_ok_shape (prices : List PyVal) (period : ℚ) (out : List (Option NpVal))
    (h : ema prices period = Except.ok out) :
    out = List.replicate prices.length Option.none := by
  unfold ema at h
  split at h
  · exact absurd h (by simp)
  · split at h
    · exact absurd h (by simp)
    · injection h with h
      rw [← h]
      simp [MockTALib.EMA, to_list_replicate_nan]

lemma macd_ok_shape (prices : List PyVal) (fast slow signal : ℚ)
    (out : List (String × List (Option NpVal)))
    (h : macd prices fast slow signal = Except.ok out) :
    out = [("macd", List.replicate prices.length Option.none),
           ("macdsignal", List.replicate prices.length Option.none),
           ("macdhist", List.replicate prices.length Option.none)] := by
  unfold macd at h
  split at h
  · exact absurd h (by simp)
  · split at h
    · exact absurd h (by simp)
    · split at h
      · exact absurd h (by simp)
      · split at h
        · exact absurd h (by simp)
        · split at h
          · exact absurd h (by simp)
          · split at h
            · exact absurd h (by simp)
            · injection h with h
              rw [← h]
              simp [MockTALib.MACD, to_list_replicate_nan]

lemma bbands_ok_shape (prices : List PyVal) (period up dn : ℚ)
    (out : List (String × List (Option NpVal)))
    (h : bbands prices period up dn = Except.ok out) :
    out = [("upperband", List.replicate prices.length Option.none),
           ("middleband", List.replicate prices.length Option.none),
           ("lowerband", List.replicate prices.length Option.none)] := by
  unfold bbands at h
  split at h
  · exact absurd h (by simp)
  · split at h
    · exact absurd h (by simp)
    · split at h
      · exact absurd h (by simp)
      · split at h
        · exact absurd h (by simp)
        · injection h with h
          rw [← h]
          simp [MockTALib.BBANDS, to_list_replicate_nan]

lemma validate_positive_err (v : ℚ) (name : String) (h : v ≤ 0) :
    validate_positive v name = Except.error (name ++ " must be positive") := by
  simp [validate_positive, h]

lemma validate_positive_ok (v : ℚ) (name : String) (h : ¬v ≤ 0) :
    validate_positive v name = Except.ok () := by
  simp [validate_positive, h]

lemma isOk_error {α : Type} (e : String) :
    (Except.error e : Except String α).isOk = false := rfl

lemma isOk_ok {α : Type} (a : α) : (Except.ok a : Except String α).isOk = true := rfl

lemma macd_isOk_iff (prices : List PyVal) (fast slow signal : ℚ)
    (h1 : prices ≠ []) (h2 : prices.all PyVal.isNumeric = true) :
    (macd prices fast slow signal).isOk = true ↔
      0 < fast ∧ 0 < slow ∧ 0 < signal ∧ fast < slow ∧ slow ≤ (prices.length : ℚ) := by
  have hvp := validate_prices_ok_of_valid prices h1 h2
  by_cases hf : fast ≤ 0
  · have hm : (macd prices fast slow signal).isOk = false := by
      simp [macd, hvp, validate_positive_err fast "fast" hf, isOk_error]
    rw [hm]
    constructor
    · intro hc
      exact absurd hc (by simp)
    · rintro ⟨hp, -⟩
      linarith
  · by_cases hs : slow ≤ 0
    · have hm : (macd prices fast slow signal).isOk = false := by
        simp [macd, hvp, validate_positive_ok fast "fast" hf,
              validate_positive_err slow "slow" hs, isOk_error]
      rw [hm]
      constructor
      · intro hc
        exact absurd hc (by simp)
      · rintro ⟨-, hp, -⟩
        linarith
    · by_cases hsig : signal ≤ 0
      · have hm : (macd prices fast slow signal).isOk = false := by
          simp [macd, hvp, validate_positive_ok fast "fast" hf,
                validate_positive_ok slow "slow" hs,
                validate_positive_err signal "signal" hsig, isOk_error]
        rw [hm]
        constructor
        · intro hc
          exact absurd hc (by simp)
        · rintro ⟨-, -, hp, -⟩
          linarith
      · by_cases hge : fast ≥ slow
        · have hm : (macd prices fast slow signal).isOk = false := by
            simp [macd, hvp, validate_positive_ok fast "fast" hf,
                  validate_positive_ok slow "slow" hs,
                  validate_positive_ok signal "signal" hsig, hge, isOk_error]
          rw [hm]
          constructor
          · intro hc
            exact absurd hc (by simp)
          · rintro ⟨-, -, -, hlt, -⟩
            linarith
        · by_cases hlen : slow > (prices.length : ℚ)
          · have hpd : validate_period slow prices =
                Except.error "period cannot exceed length of prices" := by
              simp [validate_period, validate_positive_ok slow "period" hs, hlen]
            have hm : (macd prices fast slow signal).isOk = false := by
              simp [macd, hvp, validate_positive_ok fast "fast" hf,
                    validate_positive_ok slow "slow" hs,
                    validate_positive_ok signal "signal" hsig, hge, hpd, isOk_error]
            rw [hm]
            constructor
            · intro hc
              exact absurd hc (by simp)
            · rintro ⟨-, -, -, -, hle⟩
              linarith
          · have hpd : validate_period slow prices = Except.ok () := by
              simp [validate_period, validate_positive_ok slow "period" hs, hlen]
            have hm : (macd prices fast slow signal).isOk = true := by
              simp [macd, hvp, validate_positive_ok fast "fast" hf,
                    validate_positive_ok slow "slow" hs,
                    validate_positive_ok signal "signal" hsig, hge, hpd, isOk_ok]
            rw [hm]
            simp only [true_iff]
            exact ⟨lt_of_not_le hf, lt_of_not_le hs, lt_of_not_le hsig,
                   lt_of_not_ge hge, le_of_not_lt hlen⟩

/-! Claim theorems. -/

/-- C1: whenever an indicator function (rsi, sma, ema, macd, bbands) returns a
result — i.e. the input passed validation — the returned sequence, and for
macd and bbands each of the three sequences in the returned mapping, has
length equal to the length of the input price list. -/
theorem indicator_result_length (prices : List PyVal) (period fast slow signal up dn : ℚ) :
    (∀ out, rsi prices period = Except.ok out → out.length = prices.length) ∧
    (∀ out, sma prices period = Except.ok out → out.length = prices.length) ∧
    (∀ out, ema prices period = Except.ok out → out.length = prices.length) ∧
    (∀ out, macd prices fast slow signal = Except.ok out →
      ∀ p, p ∈ out → p.2.length = prices.length) ∧
    (∀ out, bbands prices period up dn = Except.ok out →
      ∀ p, p ∈ out → p.2.length = prices.length) := by
  refine ⟨?_, ?_, ?_, ?_, ?_⟩
  · intro out h
    rw [rsi_ok_shape prices period out h]
    simp
  · intro out h
    rw [sma_ok_shape prices period out h]
    simp
  · intro out h
    rw [ema_ok_shape prices period out h]
    simp
  · intro out h p hp
    rw [macd_ok_shape prices fast slow signal out h] at hp
    simp only [List.mem_cons, List.not_mem_nil, or_false] at hp
    rcases hp with rfl | rfl | rfl <;> simp
  · intro out h p hp
    rw [bbands_ok_shape prices period up dn out h] at hp
    simp only [List.mem_cons, List.not_mem_nil, or_false] at hp
    rcases hp with rfl | rfl | rfl <;> simp

/-- C1 witness: instantiation at prices = [1], period 1. -/
theorem indicator_result_length_witness :
    ([Option.none] : List (Option NpVal)).length = ([PyVal.num 1] : List PyVal).length :=
  (indicator_result_length [PyVal.num 1] 1 1 2 1 1 1).1 [Option.none] rfl

/-- C2: for a non-empty numeric price list, macd errors whenever fast ≥ slow
and whenever the slow period exceeds the list length; for positive fast < slow
with slow ≤ length and positive signal it succeeds. -/
theorem macd_parameter_checks (prices : List PyVal) (fast slow signal : ℚ)
    (h1 : prices ≠ []) (h2 : prices.all PyVal.isNumeric = true) :
    (fast ≥ slow → (macd prices fast slow signal).isOk = false) ∧
    ((prices.length : ℚ) < slow → (macd prices fast slow signal).isOk = false) ∧
    (0 < fast → fast < slow → slow ≤ (prices.length : ℚ) → 0 < signal →
      (macd prices fast slow signal).isOk = true) := by
  have hiff := macd_isOk_iff prices fast slow signal h1 h2
  refine ⟨?_, ?_, ?_⟩
  · intro hge
    cases hok : (macd prices fast slow signal).isOk
    · rfl
    · exfalso
      obtain ⟨-, -, -, hlt, -⟩ := hiff.mp hok
      linarith
  · intro hgt
    cases hok : (macd prices fast slow signal).isOk
    · rfl
    · exfalso
      obtain ⟨-, -, -, -, hle⟩ := hiff.mp hok
      linarith
  · intro hfa hlt hle hsg
    exact hiff.mpr ⟨hfa, lt_trans hfa hlt, hsg, hlt, hle⟩

/-- C2 witness: macd([1, 2], fast=10, slow=5, signal=9) errors. -/
theorem macd_parameter_checks_witness :
    (macd [PyVal.num 1, PyVal.num 2] 10 5 9).isOk = false :=
  (macd_parameter_checks [PyVal.num 1, PyVal.num 2] 10 5 9 (by decide) rfl).1
    (by norm_num)

/-- C3 counterexample: the period 5/2 = 2.5 is not a positive integer, yet
validate_period accepts it against a series of length 3 and rsi computes a
result instead of raising. -/
theorem validate_period_accepts_noninteger :
    validate_period (5/2) [PyVal.num 1, PyVal.num 2, PyVal.num 3] = Except.ok () ∧
    rsi [PyVal.num 1, PyVal.num 2, PyVal.num 3] (5/2) =
      Except.ok [Option.none, Option.none, Option.none] := by
  have hvpd : validate_period (5/2) [PyVal.num 1, PyVal.num 2, PyVal.num 3] =
      Except.ok () := by
    apply (validate_period_ok_iff _ _).mpr
    constructor
    · norm_num
    · norm_num [List.length_cons, List.length_nil]
  refine ⟨hvpd, ?_⟩
  have hvp : validate_prices [PyVal.num 1, PyVal.num 2, PyVal.num 3] =
      Except.ok () := rfl
  unfold rsi
  rw [hvp, hvpd]
  rfl

/-- C3 amended: validate_period fails exactly for non-positive periods and for
periods exceeding the series length; it makes no integrality check, so a
positive non-integer period within the length passes. -/
theorem validate_period_error_characterization (period : ℚ) (prices : List PyVal) :
    (validate_period period prices).isOk = false ↔
      period ≤ 0 ∨ (prices.length : ℚ) < period := by
  have hiff := validate_period_ok_iff period prices
  constructor
  · intro hc
    by_contra hn
    push_neg at hn
    obtain ⟨hp, hle⟩ := hn
    rw [hiff.mpr ⟨hp, hle⟩, isOk_ok] at hc
    simp at hc
  · intro h
    rcases hv : validate_period period prices with e | u
    · rfl
    · exfalso
      cases u
      obtain ⟨hp, hle⟩ := hiff.mp hv
      rcases h with h | h <;> linarith

/-- C4: evaluation of the code at a failing input.  With the module-level
`talib = MockTALib()` backend every produced value is NaN, so after
`_to_list` conversion every entry is null: for period p = 5 on a length-5
series the entry at index p−1 = 4 of sma/ema/bbands is null, and for
p = 4 the entry of rsi at index p = 4 is null, where the claim (and the
repository's own tests and docstring examples) require those entries
non-null. -/
theorem warmup_entries_all_null_on_code :
    sma [PyVal.num 1, PyVal.num 2, PyVal.num 3, PyVal.num 4, PyVal.num 5] 5 =
      Except.ok [Option.none, Option.none, Option.none, Option.none, Option.none] ∧
    ema [PyVal.num 1, PyVal.num 2, PyVal.num 3, PyVal.num 4, PyVal.num 5] 5 =
      Except.ok [Option.none, Option.none, Option.none, Option.none, Option.none] ∧
    rsi [PyVal.num 1, PyVal.num 2, PyVal.num 3, PyVal.num 4, PyVal.num 5] 4 =
      Except.ok [Option.none, Option.none, Option.none, Option.none, Option.none] ∧
    bbands [PyVal.num 1, PyVal.num 2, PyVal.num 3, PyVal.num 4, PyVal.num 5] 5 2 2 =
      Except.ok
        [("upperband", [Option.none, Option.none, Option.none, Option.none, Option.none]),
         ("middleband", [Option.none, Option.none, Option.none, Option.none, Option.none]),
         ("lowerband", [Option.none, Option.none, Option.none, Option.none, Option.none])] :=
  ⟨rfl, rfl, rfl, rfl⟩

/-- C5: evaluation of the code at the spec's end-to-end input.
sma([1,...,10], period=5) returns ten nulls — in particular null at index 4
(the claim says 3.0, the mean of 1..5) and null at index 9 (the claim says
8.0, the mean of 6..10). -/
theorem sma_example_output_on_code :
    sma [PyVal.num 1, PyVal.num 2, PyVal.num 3, PyVal.num 4, PyVal.num 5,
         PyVal.num 6, PyVal.num 7, PyVal.num 8, PyVal.num 9, PyVal.num 10] 5 =
      Except.ok (List.replicate 10 Option.none) := rfl

/-- C6: evaluation of the code's result-dictionary keys.  macd returns the
keys macd/macdsignal/macdhist and bbands returns
upperband/middleband/lowerband, where the claim (and the repository's own
tests) require macd/signal/histogram and upper/middle/lower. -/
theorem result_mapping_keys_on_code :
    (macd (List.map (fun k => PyVal.num k)
        [1, 2, 3, 4, 5, 6, 7, 8, 9, 10, 11, 12, 13, 14, 15, 16, 17, 18, 19, 20,
         21, 22, 23, 24, 25, 26]) 12 26 9).map (fun out => out.map Prod.fst) =
      Except.ok ["macd", "macdsignal", "macdhist"] ∧
    (bbands (List.map (fun k => PyVal.num k)
        [1, 2, 3, 4, 5, 6, 7, 8, 9, 10, 11, 12, 13, 14, 15, 16, 17, 18, 19, 20])
        20 2 2).map (fun out => out.map Prod.fst) =
      Except.ok ["upperband", "middleband", "lowerband"] :=
  ⟨rfl, rfl⟩

/-- C7 counterexample: with secret "secret", the header "Bearer  secret"
presents the raw token " secret" (leading space), which differs from the
configured secret, yet dispatch invokes the wrapped application instead of
returning the 401 response. -/
theorem dispatch_accepts_mismatched_raw_token :
    dispatch "secret".toList (Option.some ("Bearer  secret".toList)) =
      DispatchResult.callNext ∧
    " secret".toList ≠ "secret".toList :=
  ⟨rfl, by decide⟩

/-- C7 amended: dispatch returns the single 401 {"error": "Unauthorized"}
response when the Authorization header is missing or does not start with
"Bearer ", returns the byte-for-byte identical 401 response when the
presented token — after stripping surrounding whitespace, as the code does —
differs from the configured secret, and invokes the wrapped application
exactly when the stripped token equals the secret. -/
theorem dispatch_response_characterization (key : List Char) (auth : Option (List Char)) :
    ((auth = Option.none ∨ (∃ a, auth = Option.some a ∧ a.take 7 ≠ bearerChars)) →
      dispatch key auth = DispatchResult.response unauthorized) ∧
    (∀ a, auth = Option.some a → a.take 7 = bearerChars → pyStrip (a.drop 7) ≠ key →
      dispatch key auth = DispatchResult.response unauthorized) ∧
    (dispatch key auth = DispatchResult.callNext ↔
      ∃ a, auth = Option.some a ∧ a.take 7 = bearerChars ∧ pyStrip (a.drop 7) = key) := by
  refine ⟨?_, ?_, ?_⟩
  · rintro (rfl | ⟨a, rfl, hne⟩)
    · rfl
    · by_cases he : a = []
      · subst he
        rfl
      · simp [dispatch, he, hne]
  · rintro a rfl h7 hne
    have he : a ≠ [] := by
      intro h
      rw [h] at h7
      simp [bearerChars] at h7
    simp [dispatch, he, h7, hne]
  · constructor
    · intro h
      cases auth with
      | none => exact absurd h (by simp [dispatch])
      | some a =>
        by_cases he : a = []
        · exact absurd h (by simp [dispatch, he])
        · by_cases h7 : a.take 7 = bearerChars
          · by_cases hst : pyStrip (a.drop 7) = key
            · exact ⟨a, rfl, h7, hst⟩
            · exact absurd h (by simp [dispatch, he, h7, hst])
          · exact absurd h (by simp [dispatch, he, h7])
    · rintro ⟨a, rfl, h7, hst⟩
      have he : a ≠ [] := by
        intro hc
        rw [hc] at h7
        simp [bearerChars] at h7
      simp [dispatch, he, h7, hst]

/-- C7 witness: a request with no Authorization header gets the 401 response. -/
theorem dispatch_response_characterization_witness :
    dispatch "secret".toList Option.none = DispatchResult.response unauthorized :=
  (dispatch_response_characterization "secret".toList Option.none).1 (Or.inl rfl)

/-- C8 counterexample: with secret "secret", the header "Bearer secret "
presents the token "secret " (trailing space), which differs from the secret
as a string, yet the request is accepted. -/
theorem dispatch_accepts_trailing_space_token :
    dispatch "secret".toList (Option.some ("Bearer secret ".toList)) =
      DispatchResult.callNext ∧
    "secret ".toList ≠ "secret".toList :=
  ⟨rfl, by decide⟩

/-- C8 amended: for an Authorization header "Bearer " followed by a token t,
the request is accepted if and only if t stripped of leading and trailing
whitespace equals the configured secret — so a t differing from the secret
only by surrounding whitespace is accepted, and every other difference is
rejected. -/
theorem dispatch_accepts_iff_stripped_token_matches (key t : List Char) :
    dispatch key (Option.some (bearerChars ++ t)) = DispatchResult.callNext ↔
      pyStrip t = key := by
  have hlen7 : bearerChars.length = 7 := rfl
  have h7 : (bearerChars ++ t).take 7 = bearerChars := by
    rw [← hlen7, List.take_left]
  have hd : (bearerChars ++ t).drop 7 = t := by
    rw [← hlen7, List.drop_left]
  have he : bearerChars ++ t ≠ [] := by simp [bearerChars]
  constructor
  · intro h
    by_contra hst
    simp [dispatch, he, h7, hd, hst] at h
  · intro hst
    simp [dispatch, he, h7, hd, hst]

/-- C9: constructing the middleware with no api_key argument and an absent or
empty MCP_API_KEY errors at startup, and any successful construction stores a
non-empty secret. -/
theorem bearer_auth_init_requires_secret (envKey : Option (List Char))
    (h : envKey = Option.none ∨ envKey = Option.some []) :
    bearerAuthInit Option.none envKey =
      Except.error "MCP_API_KEY environment variable is not set." ∧
    (∀ a e s, bearerAuthInit a e = Except.ok s → s ≠ []) := by
  constructor
  · rcases h with rfl | rfl <;> rfl
  · intro a e s hs hnil
    subst hnil
    unfold bearerAuthInit at hs
    split at hs
    · simp at hs
    · split at hs
      · simp at hs
      · injection hs with hs
        simp_all

/-- C9 witness: both the argument and the environment variable absent. -/
theorem bearer_auth_init_requires_secret_witness :
    bearerAuthInit Option.none Option.none =
      Except.error "MCP_API_KEY environment variable is not set." :=
  (bearer_auth_init_requires_secret Option.none (Or.inl rfl)).1

/-- C10: a non-empty price list whose elements are numeric by type — which
includes float NaN and infinity — passes validate_prices, and every indicator
then computes a result instead of erroring, for parameters passing the
period checks. -/
theorem nonfinite_values_pass_validation (prices : List PyVal)
    (h1 : prices ≠ []) (h2 : prices.all PyVal.isNumeric = true)
    (_h3 : PyVal.nan ∈ prices ∨ PyVal.inf ∈ prices)
    (period : ℚ) (hp : 0 < period) (hlen : period ≤ (prices.length : ℚ)) :
    validate_prices prices = Except.ok () ∧
    (rsi prices period).isOk = true ∧
    (sma prices period).isOk = true ∧
    (ema prices period).isOk = true ∧
    (bbands prices period 2 2).isOk = true ∧
    (1 < period → (macd prices 1 period 9).isOk = true) := by
  have hvp := validate_prices_ok_of_valid prices h1 h2
  have hvpd : validate_period period prices = Except.ok () :=
    (validate_period_ok_iff period prices).mpr ⟨hp, hlen⟩
  refine ⟨hvp, ?_, ?_, ?_, ?_, ?_⟩
  · simp [rsi, hvp, hvpd, isOk_ok]
  · simp [sma, hvp, hvpd, isOk_ok]
  · simp [ema, hvp, hvpd, isOk_ok]
  · have hup : validate_positive 2 "upper_dev" = Except.ok () := by
      apply validate_positive_ok
      norm_num
    have hdn : validate_positive 2 "lower_dev" = Except.ok () := by
      apply validate_positive_ok
      norm_num
    simp [bbands, hvp, hvpd, hup, hdn, isOk_ok]
  · intro h1p
    exact (macd_isOk_iff prices 1 period 9 h1 h2).mpr
      ⟨one_pos, by linarith, by norm_num, h1p, hlen⟩

/-- C10 witness: the list [NaN, inf] passes validation. -/
theorem nonfinite_values_pass_validation_witness :
    validate_prices [PyVal.nan, PyVal.inf] = Except.ok () :=
  (nonfinite_values_pass_validation [PyVal.nan, PyVal.inf] (by decide) rfl
    (Or.inl (by decide)) 2 (by norm_num)
    (by norm_num [List.length_cons, List.length_nil])).1

